import Mathlib

/-!
Verification development for the task/dashboard backend.

The definitions below are a shallow embedding of the two source files:
`backend/src/controllers/authController.js` (token issuance, the `protect`
authentication gate, log-in, profile/password update, log-out) and the HTTP
entrypoint (route mounting and the 404 fallback).

Machine conventions:
* JavaScript strings are Lean `String`; `undefined`-able values are `Option`.
* JS truthiness on an optional string (`!x`) is `truthy` below: `undefined`
  and the empty string are falsy.
* The signed JWT wire format is opaque to the controller code, so it is
  modelled as an injective encoding of the signed payload
  `{id, iat, exp, sig}` into a string of binary digits; `jwtVerify` decodes
  and checks the signature component against the shared secret and the
  expiry against the clock, exactly the two checks `jsonwebtoken.verify`
  performs.
* Times are `Nat`: millisecond timestamps for cookie expiries (`Date.now()`)
  and second timestamps for JWT `iat`/`exp` claims.
* The mongoose user model is not part of the two source files; its pieces
  (`comparePasswords`, `passwordChangedAfter`, the save-time hashing hook)
  are modelled from the spec and marked as such in their doc comments.
-/

/-- Decoded JWT payload: `jwt.sign({ id }, …)` plus the `iat` claim the
library adds at signing time. -/
structure JwtPayload where
  id : Nat
  iat : Nat
deriving Repr, DecidableEq

/-- A signed token: payload, expiry, and the signature (modelled as the
secret that produced it: a signature verifies exactly under that secret). -/
structure SignedToken where
  id : Nat
  iat : Nat
  exp : Nat
  sig : Nat
deriving Repr, DecidableEq

/-- Little-endian binary digits of a natural number, with explicit fuel so
that it is structurally recursive (fuel `n` always suffices). -/
def natToBinAux : Nat → Nat → List Char
  | 0, _ => []
  | fuel + 1, n =>
    if n = 0 then []
    else (if n % 2 = 1 then '1' else '0') :: natToBinAux fuel (n / 2)

/-- Little-endian binary digits of a natural number, as characters. -/
def natToBin (n : Nat) : List Char := natToBinAux n n

/-- Read back a little-endian binary digit string. -/
def binToNat : List Char → Nat
  | [] => 0
  | c :: cs => (if c = '1' then 1 else 0) + 2 * binToNat cs

/-- Read one binary chunk up to the field separator, returning its value and
the rest of the input past the separator. -/
def parseBin : List Char → Nat × List Char
  | [] => (0, [])
  | c :: cs =>
    if c = 's' then (0, cs)
    else
      let p := parseBin cs
      ((if c = '1' then 1 else 0) + 2 * p.1, p.2)

theorem binToNat_natToBinAux (fuel : Nat) :
    ∀ n, n ≤ fuel → binToNat (natToBinAux fuel n) = n := by
  induction fuel with
  | zero =>
    intro n h
    have h0 : n = 0 := by omega
    simp [h0, natToBinAux, binToNat]
  | succ fuel ih =>
    intro n h
    by_cases h0 : n = 0
    · simp [h0, natToBinAux, binToNat]
    · have hd : n / 2 < n := Nat.div_lt_self (Nat.pos_of_ne_zero h0) (by omega)
      rw [natToBinAux, if_neg h0, binToNat, ih (n / 2) (by omega)]
      have hm := Nat.mod_two_eq_zero_or_one n
      by_cases h2 : n % 2 = 1
      · rw [if_pos h2, if_pos rfl]
        omega
      · rw [if_neg h2, if_neg (by decide)]
        omega

theorem binToNat_natToBin (n : Nat) : binToNat (natToBin n) = n :=
  binToNat_natToBinAux n n (Nat.le_refl n)

theorem parseBin_natToBinAux (fuel : Nat) :
    ∀ n rest, n ≤ fuel →
      parseBin (natToBinAux fuel n ++ 's' :: rest) = (n, rest) := by
  induction fuel with
  | zero =>
    intro n rest h
    have h0 : n = 0 := by omega
    simp [h0, natToBinAux, parseBin]
  | succ fuel ih =>
    intro n rest h
    by_cases h0 : n = 0
    · simp [h0, natToBinAux, parseBin]
    · have hd : n / 2 < n := Nat.div_lt_self (Nat.pos_of_ne_zero h0) (by omega)
      rw [natToBinAux, if_neg h0, List.cons_append, parseBin]
      have hm := Nat.mod_two_eq_zero_or_one n
      by_cases h2 : n % 2 = 1
      · rw [if_pos h2, if_neg (by decide), ih (n / 2) rest (by omega)]
        simp
        omega
      · rw [if_neg h2, if_neg (by decide), ih (n / 2) rest (by omega)]
        simp
        omega

theorem parseBin_natToBin (n : Nat) (rest : List Char) :
    parseBin (natToBin n ++ 's' :: rest) = (n, rest) :=
  parseBin_natToBinAux n n rest (Nat.le_refl n)

/-- The opaque token string put on the wire: a leading marker, then the four
fields of the signed token in binary, separated by markers. The controller
never inspects this string. -/
def tokString (t : SignedToken) : String :=
  String.mk ('j' :: (natToBin t.id ++ 's' ::
    (natToBin t.iat ++ 's' :: (natToBin t.exp ++ 's' :: natToBin t.sig))))

/-- Decode an arbitrary wire string back into a token candidate (total:
garbage strings decode to some candidate, whose signature then fails to
verify unless it happens to match the secret). -/
def decodeTok (s : String) : SignedToken :=
  let p1 := parseBin s.data.tail
  let p2 := parseBin p1.2
  let p3 := parseBin p2.2
  ⟨p1.1, p2.1, p3.1, binToNat p3.2⟩

theorem decodeTok_tokString (t : SignedToken) : decodeTok (tokString t) = t := by
  simp [decodeTok, tokString, parseBin_natToBin, binToNat_natToBin]

theorem tokString_ne_empty (t : SignedToken) : tokString t ≠ "" := by
  intro h
  rw [tokString] at h
  exact List.cons_ne_nil _ _ (congrArg String.data h)

/-- Failure modes of `jsonwebtoken.verify` relevant here. -/
inductive JwtError where
  | invalidSignature
  | expired
deriving Repr, DecidableEq

/-- Modelled from the spec: the global error controller is not among the
source files; per §4.2 step 2 a failed verification surfaces as a 401 with
the library's message. -/
def jwtErrorMessage : JwtError → String
  | .invalidSignature => "invalid signature"
  | .expired => "jwt expired"

/-- `jwt.sign({ id }, secret, { expiresIn })` at clock second `nowS`. -/
def jwtSign (secret expiresIn nowS id : Nat) : String :=
  tokString ⟨id, nowS, nowS + expiresIn, secret⟩

instance : DecidableEq (Except JwtError JwtPayload) := fun a b =>
  match a, b with
  | .error x, .error y => decidable_of_iff (x = y) (by simp)
  | .ok x, .ok y => decidable_of_iff (x = y) (by simp)
  | .error _, .ok _ => isFalse (by simp)
  | .ok _, .error _ => isFalse (by simp)

/-- `jwt.verify(token, secret)` at clock second `nowS`: signature check
against the shared secret, then expiry check (`exp ≤ now` is expired). -/
def jwtVerify (secret nowS : Nat) (s : String) : Except JwtError JwtPayload :=
  let t := decodeTok s
  if t.sig ≠ secret then .error .invalidSignature
  else if t.exp ≤ nowS then .error .expired
  else .ok ⟨t.id, t.iat⟩

theorem jwtVerify_jwtSign (secret expiresIn nowS iatS id : Nat)
    (h : nowS < iatS + expiresIn) :
    jwtVerify secret nowS (jwtSign secret expiresIn iatS id) =
      Except.ok ⟨id, iatS⟩ := by
  simp [jwtVerify, jwtSign, decodeTok_tokString]
  omega

/-- Process-wide configuration read from the environment. -/
structure Env where
  jwtSecret : Nat
  jwtExpiresIn : Nat
  cookieExpiresInDays : Nat
  nodeEnv : String
deriving Repr, DecidableEq

/-- A stored user document (the database record; `password` is the stored
one-way hash, always physically present in the store). -/
structure UserRec where
  _id : Nat
  name : String
  email : String
  password : String
  passwordChangedAt : Option Nat
  role : String
  status : String
deriving Repr, DecidableEq

/-- A user document as a query returns it: `password` is `none` unless the
query selected the normally-hidden field with `.select("+password")`. -/
structure UserDoc where
  _id : Nat
  name : String
  email : String
  password : Option String
  passwordChangedAt : Option Nat
  role : String
  status : String
deriving Repr, DecidableEq

/-- Query result without the hidden `password` field (the default). -/
def deselect (r : UserRec) : UserDoc :=
  ⟨r._id, r.name, r.email, none, r.passwordChangedAt, r.role, r.status⟩

/-- Query result of a `.select("+password")` query. -/
def withPassword (r : UserRec) : UserDoc :=
  ⟨r._id, r.name, r.email, some r.password, r.passwordChangedAt, r.role, r.status⟩

/-- `User.findById(id)` (password not selected). -/
def findById (db : List UserRec) (id : Nat) : Option UserDoc :=
  (db.find? (fun r => r._id = id)).map deselect

/-- `User.findOne({ email }).select("+password")`. -/
def findOneByEmailWithPassword (db : List UserRec) (email : String) : Option UserDoc :=
  (db.find? (fun r => r.email = email)).map withPassword

/-- `User.findById(id).select("+password")`. -/
def findByIdWithPassword (db : List UserRec) (id : Nat) : Option UserDoc :=
  (db.find? (fun r => r._id = id)).map withPassword

/-- Modelled from the spec: the data layer's one-way password hash
(`userModel` is not among the source files). Injective stand-in for bcrypt. -/
def bhash (s : String) : String := "hashed:" ++ s

/-- Modelled from the spec: `user.comparePasswords(candidate, storedHash)`,
the one-way hash check delegated to the data layer. -/
def comparePasswords (candidate storedHash : String) : Bool :=
  bhash candidate == storedHash

/-- Modelled from the spec: `user.passwordChangedAfter(iat)` — true when the
password was changed strictly after the token's issue time (§4.2 step 4). -/
def UserDoc.passwordChangedAfter (u : UserDoc) (iat : Nat) : Bool :=
  match u.passwordChangedAt with
  | none => false
  | some t => iat < t

/-- JS truthiness of a possibly-absent string: `undefined` and `""` are
falsy. -/
def truthy : Option String → Bool
  | none => false
  | some s => s != ""

/-- Cookie attributes as `res.cookie` receives them. -/
structure CookieOptions where
  expires : Nat
  secure : Bool
  sameSite : String
  httpOnly : Bool
  path : String
deriving Repr, DecidableEq

/-- A `Set-Cookie` emitted by the response. -/
structure SetCookie where
  name : String
  value : String
  options : CookieOptions
deriving Repr, DecidableEq

/-- The cookie options built inside `sendToken` (`Date.now()` is `nowMs`). -/
def cookieOptions (env : Env) (nowMs : Nat) : CookieOptions :=
  { expires := nowMs + env.cookieExpiresInDays * 24 * 60 * 60 * 1000
    secure := if env.nodeEnv == "development" then false else true
    sameSite := if env.nodeEnv == "development" then "Strict" else "None"
    httpOnly := true
    path := "/" }

/-- `createSendToken(id)`: sign `{ id }` with the configured secret and
expiry. -/
def createSendToken (env : Env) (nowS : Nat) (id : Nat) : String :=
  jwtSign env.jwtSecret env.jwtExpiresIn nowS id

/-- The JSON body `{status: "success", token, user}` sent by `sendToken`. -/
structure TokenResponse where
  statusCode : Nat
  status : String
  token : String
  user : UserDoc
deriving Repr, DecidableEq

/-- `sendToken(user, statusCode, res)`: issue a token, set the `jwt` cookie,
and send `{status, token, user}`. -/
def sendToken (env : Env) (nowMs nowS : Nat) (user : UserDoc) (statusCode : Nat) :
    SetCookie × TokenResponse :=
  let token := createSendToken env nowS user._id
  (⟨"jwt", token, cookieOptions env nowMs⟩,
   ⟨statusCode, "success", token, user⟩)

/-- `filterObject(obj, ...allowedFields)`: keep only the allow-listed keys
of the request body (bodies are association lists of string fields). -/
def filterObject (obj : List (String × String)) (allowedFields : List String) :
    List (String × String) :=
  obj.filter (fun kv => allowedFields.contains kv.1)

/-- Outcome of the `protect` middleware on one request. -/
inductive AuthOutcome where
  | rejected (status : Nat) (message : String)
  | authorized (user : UserDoc)
deriving Repr, DecidableEq

/-- String prefix test (`authorization.startsWith("Bearer")`), executed on
the underlying character lists. -/
def strStartsWith (s p : String) : Bool :=
  p.data.isPrefixOf s.data

/-- Split a character list on a separator character (JS
`String.prototype.split` with a one-character separator). -/
def splitChar (sep : Char) : List Char → List (List Char)
  | [] => [[]]
  | c :: cs =>
    if c = sep then [] :: splitChar sep cs
    else
      match splitChar sep cs with
      | [] => [[c]]
      | g :: gs => (c :: g) :: gs

/-- `authorization.split(" ")`. -/
def strSplitOnSpace (s : String) : List String :=
  (splitChar ' ' s.data).map String.mk

/-- Token extraction at the top of `protect`: a truthy `Authorization`
header starting with `Bearer` wins (its second space-separated part, which
may be absent), else a truthy `jwt` cookie. -/
def extractToken (auth ck : Option String) : Option String :=
  if truthy auth && strStartsWith (auth.getD "") "Bearer" then
    (strSplitOnSpace (auth.getD "")).get? 1
  else if truthy ck then ck
  else none

/-- The `protect` middleware: extract a token, verify it, load the user,
check password freshness, then attach the user and pass control on. -/
def protect (db : List UserRec) (secret nowS : Nat) (auth ck : Option String) :
    AuthOutcome :=
  if truthy (extractToken auth ck) then
    match jwtVerify secret nowS ((extractToken auth ck).getD "") with
    | .error e => .rejected 401 (jwtErrorMessage e)
    | .ok payload =>
      match findById db payload.id with
      | none => .rejected 401 "The user belonging to this token no longer exists."
      | some currentUser =>
        if currentUser.passwordChangedAfter payload.iat then
          .rejected 401 "User recently changed password. Please log in again."
        else .authorized currentUser
  else
    .rejected 401 "You are not logged in! Please log in to access this route."

/-- Result of an endpoint that either forwards an error or sends a token
response with its cookie. -/
inductive EndpointResult where
  | err (status : Nat) (message : String)
  | ok (cookie : SetCookie) (resp : TokenResponse)
deriving Repr, DecidableEq

/-- `logIn`: require truthy email and password, fetch by email with the
password field selected, compare hashes, then issue a token. -/
def logIn (env : Env) (db : List UserRec) (nowMs nowS : Nat)
    (email password : Option String) : EndpointResult :=
  if !truthy email || !truthy password then
    .err 401 "Please enter email and password"
  else
    match findOneByEmailWithPassword db (email.getD "") with
    | none => .err 401 "Invalid email or password"
    | some user =>
      if !comparePasswords (password.getD "") (user.password.getD "") then
        .err 401 "Invalid email or password"
      else
        let st := sendToken env nowMs nowS user 200
        .ok st.1 st.2

/-- The request body of `updateMyPassword`. -/
structure PwdBody where
  password : Option String
  passwordConfirm : Option String
  newPassword : Option String
deriving Repr, DecidableEq

/-- Modelled from the spec: `user.save()` after assigning a new password —
the data layer validates that the confirmation matches, hashes the new
password, and updates the password-changed-at timestamp (userModel is not
among the source files; §4.4). -/
def saveNewPassword (r : UserRec) (newPassword passwordConfirm : Option String)
    (nowS : Nat) : Except String UserRec :=
  match newPassword, passwordConfirm with
  | some np, some pc =>
    if np = pc then .ok { r with password := bhash np, passwordChangedAt := some nowS }
    else .error "Passwords do not match"
  | _, _ => .error "Passwords do not match"

/-- `updateMyPassword`: re-authenticate with the current password, then save
the new one and issue a fresh token. Returns the store after the call and
the response. -/
def updateMyPassword (env : Env) (db : List UserRec) (nowMs nowS : Nat)
    (userId : Nat) (body : PwdBody) : List UserRec × EndpointResult :=
  match db.find? (fun r => r._id = userId) with
  | none => (db, .err 500 "Cannot read properties of null")
  | some r =>
    if !truthy body.password || !comparePasswords (body.password.getD "") r.password then
      (db, .err 400 "Current password is incorrect")
    else
      match saveNewPassword r body.newPassword body.passwordConfirm nowS with
      | .error m => (db, .err 400 m)
      | .ok r2 =>
        let st := sendToken env nowMs nowS (withPassword r2) 200
        (db.map (fun x => if x._id = userId then r2 else x), .ok st.1 st.2)

/-- One field assignment of `findByIdAndUpdate`: schema fields are set,
anything outside the schema is ignored by the store. -/
def applyField (r : UserRec) (kv : String × String) : UserRec :=
  if kv.1 = "name" then { r with name := kv.2 }
  else if kv.1 = "email" then { r with email := kv.2 }
  else if kv.1 = "status" then { r with status := kv.2 }
  else if kv.1 = "role" then { r with role := kv.2 }
  else r

/-- `User.findByIdAndUpdate(id, data, {new: true, ...})`: apply the update
and return the updated document (password not selected). -/
def findByIdAndUpdate (db : List UserRec) (id : Nat) (data : List (String × String)) :
    List UserRec × Option UserDoc :=
  match db.find? (fun r => r._id = id) with
  | none => (db, none)
  | some r =>
    let r2 := data.foldl applyField r
    (db.map (fun x => if x._id = id then r2 else x), some (deselect r2))

/-- The JSON body `{status: "success", user}` of `updateMe`. -/
structure UpdateMeResponse where
  statusCode : Nat
  status : String
  user : Option UserDoc
deriving Repr, DecidableEq

/-- `updateMe`: filter the body down to `name`, `email`, `status`, then
update the caller's record. -/
def updateMe (db : List UserRec) (userId : Nat) (body : List (String × String)) :
    List UserRec × UpdateMeResponse :=
  let filteredData := filterObject body ["name", "email", "status"]
  let upd := findByIdAndUpdate db userId filteredData
  (upd.1, ⟨200, "success", upd.2⟩)

/-- The JSON body `{status: "success"}` of `logOut`. -/
structure SimpleResponse where
  statusCode : Nat
  status : String
deriving Repr, DecidableEq

/-- `logOut`: overwrite the `jwt` cookie with the sentinel and a 10-second
expiry; the store is untouched. -/
def logOut (env : Env) (db : List UserRec) (nowMs : Nat) :
    List UserRec × SetCookie × SimpleResponse :=
  (db,
   ⟨"jwt", "loggedout",
    { expires := nowMs + 10 * 1000
      secure := if env.nodeEnv == "development" then false else true
      sameSite := if env.nodeEnv == "development" then "Strict" else "None"
      httpOnly := true
      path := "/" }⟩,
   ⟨200, "success"⟩)

/-- The route prefixes mounted on the app, in mounting order. -/
def mountedRoutes : List String :=
  ["/api/users", "/api/dashboard", "/api/tasks", "/api/settings"]

/-- Express `app.use(prefix, router)` path matching: the request path is the
prefix itself or extends it at a `/` boundary. -/
def useMatches (p path : String) : Bool :=
  path == p || strStartsWith path (p ++ "/")

/-- The JSON body of the 404 fallback. -/
structure NotFoundBody where
  message : String
deriving Repr, DecidableEq

/-- Where the app sends a request: a mounted router, or the `app.use("*")`
fallback with `404 {message: "Not Found"}`. -/
inductive Dispatch where
  | toRouter (p : String)
  | notFound (status : Nat) (body : NotFoundBody)
deriving Repr, DecidableEq

/-- Top-level dispatch over the mounted routes. -/
def appDispatch (path : String) : Dispatch :=
  match mountedRoutes.find? (fun p => useMatches p path) with
  | some p => .toRouter p
  | none => .notFound 404 ⟨"Not Found"⟩

/-!  General lemmas about the embedded operations. -/

theorem tokString_bne_empty (t : SignedToken) : (tokString t != "") = true := by
  simp [bne_iff_ne, tokString_ne_empty t]

theorem truthy_tokString (t : SignedToken) : truthy (some (tokString t)) = true := by
  simp [truthy, tokString_bne_empty t]

theorem extractToken_cookie (ck : String) (h : truthy (some ck) = true) :
    extractToken none (some ck) = some ck := by
  have h2 : (ck != "") = true := h
  simp [extractToken, truthy, h2]

/-- The record state `user.save()` leaves behind after a password change:
new hash, fresh password-changed-at stamp (spec §4.4). -/
def rehash (r : UserRec) (np : String) (nowS : Nat) : UserRec :=
  { r with password := bhash np, passwordChangedAt := some nowS }

theorem logIn_success (env : Env) (db : List UserRec) (nowMs nowS : Nat)
    (e cur : String) (r : UserRec)
    (hemail : db.find? (fun x => x.email = e) = some r)
    (he : truthy (some e) = true) (hcur : truthy (some cur) = true)
    (hcmp : comparePasswords cur r.password = true) :
    logIn env db nowMs nowS (some e) (some cur) =
      .ok (sendToken env nowMs nowS (withPassword r) 200).1
          (sendToken env nowMs nowS (withPassword r) 200).2 := by
  simp [logIn, he, hcur, findOneByEmailWithPassword, hemail, withPassword, hcmp]

theorem updateMyPassword_success (env : Env) (db : List UserRec) (nowMs nowS : Nat)
    (r : UserRec) (cur np : String)
    (hfind : db.find? (fun x => x._id = r._id) = some r)
    (hcur : truthy (some cur) = true)
    (hcmp : comparePasswords cur r.password = true) :
    updateMyPassword env db nowMs nowS r._id ⟨some cur, some np, some np⟩ =
      (db.map (fun x => if x._id = r._id then rehash r np nowS else x),
       .ok (sendToken env nowMs nowS (withPassword (rehash r np nowS)) 200).1
          (sendToken env nowMs nowS (withPassword (rehash r np nowS)) 200).2) := by
  simp [updateMyPassword, hfind, hcur, hcmp, saveNewPassword, rehash]

theorem applyField_keeps (r : UserRec) (kv : String × String) :
    (applyField r kv)._id = r._id ∧ (applyField r kv).password = r.password ∧
    (applyField r kv).passwordChangedAt = r.passwordChangedAt := by
  unfold applyField
  split_ifs <;> simp

theorem applyField_role (r : UserRec) (kv : String × String) (h : kv.1 ≠ "role") :
    (applyField r kv).role = r.role := by
  unfold applyField
  split_ifs <;> simp_all

theorem foldl_filter_preserves (body : List (String × String)) : ∀ r : UserRec,
    ((filterObject body ["name", "email", "status"]).foldl applyField r).role = r.role ∧
    ((filterObject body ["name", "email", "status"]).foldl applyField r)._id = r._id ∧
    ((filterObject body ["name", "email", "status"]).foldl applyField r).password = r.password ∧
    ((filterObject body ["name", "email", "status"]).foldl applyField r).passwordChangedAt =
      r.passwordChangedAt := by
  induction body with
  | nil => intro r; simp [filterObject]
  | cons kv rest ih =>
    intro r
    by_cases h : (["name", "email", "status"].contains kv.1) = true
    · have hne : kv.1 ≠ "role" := by
        intro hr
        rw [hr] at h
        exact absurd h (by decide)
      have hstep : filterObject (kv :: rest) ["name", "email", "status"] =
          kv :: filterObject rest ["name", "email", "status"] := by
        simp only [filterObject, List.filter_cons]
        rw [if_pos h]
      rw [hstep, List.foldl_cons]
      obtain ⟨k1, k2, k3⟩ := applyField_keeps r kv
      have hr := applyField_role r kv hne
      obtain ⟨i1, i2, i3, i4⟩ := ih (applyField r kv)
      exact ⟨i1.trans hr, i2.trans k1, i3.trans k2, i4.trans k3⟩
    · have hstep : filterObject (kv :: rest) ["name", "email", "status"] =
          filterObject rest ["name", "email", "status"] := by
        simp only [filterObject, List.filter_cons]
        rw [if_neg h]
      rw [hstep]
      exact ih r

/-!  Sample data used by the concrete witnesses. -/

/-- Sample development-mode configuration. -/
def envDev : Env := ⟨7, 100, 2, "development"⟩

/-- Sample production-mode configuration. -/
def envProd : Env := ⟨7, 100, 2, "production"⟩

/-- A sample user whose password was never changed. -/
def alice : UserRec :=
  ⟨1, "Alice", "alice@example.com", bhash "correct-horse", none, "user", "active"⟩

/-- A sample user whose password changed at second 20. -/
def bob : UserRec :=
  ⟨2, "Bob", "bob@example.com", bhash "pw2", some 20, "user", "active"⟩

/-- A sample user store. -/
def sampleDb : List UserRec := [alice, bob]

/-- A token for Alice signed with the wrong secret. -/
def tokBadSig : String := tokString ⟨1, 10, 110, 999⟩

/-- A well-signed token for a user id not in the store. -/
def tokGhost : String := tokString ⟨99, 10, 110, 7⟩

/-- A well-signed token for Bob issued before his password change. -/
def tokStale : String := tokString ⟨2, 10, 110, 7⟩

/-- A well-signed, unexpired token for Alice. -/
def tokAlice : String := tokString ⟨1, 10, 110, 7⟩

/-!  Claim theorems. -/

/-- C1: the authentication gate processes every request in this order —
extract a token from the `Authorization: Bearer` header or else from the
jwt cookie, rejecting with 401 "not logged in" when neither yields one;
then verify signature and expiry (failure rejects with 401); then look up
the user by the decoded id, rejecting with 401 when missing; then reject
with 401 when the password changed after the token's issue time; otherwise
attach the resolved user and pass control onward. Each conjunct fixes the
outcome from its own step's data alone, so no later step runs after a
rejection. -/
theorem protect_gate_order (db : List UserRec) (secret nowS : Nat)
    (auth ck : Option String) :
    (truthy (extractToken auth ck) = false →
      protect db secret nowS auth ck =
        .rejected 401 "You are not logged in! Please log in to access this route.") ∧
    (∀ tok e, extractToken auth ck = some tok → truthy (some tok) = true →
      jwtVerify secret nowS tok = .error e →
      protect db secret nowS auth ck = .rejected 401 (jwtErrorMessage e)) ∧
    (∀ tok p, extractToken auth ck = some tok → truthy (some tok) = true →
      jwtVerify secret nowS tok = .ok p → findById db p.id = none →
      protect db secret nowS auth ck =
        .rejected 401 "The user belonging to this token no longer exists.") ∧
    (∀ tok p u, extractToken auth ck = some tok → truthy (some tok) = true →
      jwtVerify secret nowS tok = .ok p → findById db p.id = some u →
      u.passwordChangedAfter p.iat = true →
      protect db secret nowS auth ck =
        .rejected 401 "User recently changed password. Please log in again.") ∧
    (∀ tok p u, extractToken auth ck = some tok → truthy (some tok) = true →
      jwtVerify secret nowS tok = .ok p → findById db p.id = some u →
      u.passwordChangedAfter p.iat = false →
      protect db secret nowS auth ck = .authorized u) := by
  refine ⟨?_, ?_, ?_, ?_, ?_⟩
  · intro h
    simp [protect, h]
  · intro tok e hex htr hv
    simp [protect, hex, htr, hv]
  · intro tok p hex htr hv hf
    simp [protect, hex, htr, hv, hf]
  · intro tok p u hex htr hv hf hc
    simp [protect, hex, htr, hv, hf, hc]
  · intro tok p u hex htr hv hf hc
    simp [protect, hex, htr, hv, hf, hc]

/-- C1 witness: the five gate outcomes on concrete requests — no token,
bad signature, unknown user, password changed after issue, and success. -/
theorem protect_gate_order_witness :
    protect sampleDb 7 30 none none =
      .rejected 401 "You are not logged in! Please log in to access this route." ∧
    protect sampleDb 7 30 none (some tokBadSig) =
      .rejected 401 "invalid signature" ∧
    protect sampleDb 7 30 none (some tokGhost) =
      .rejected 401 "The user belonging to this token no longer exists." ∧
    protect sampleDb 7 30 none (some tokStale) =
      .rejected 401 "User recently changed password. Please log in again." ∧
    protect sampleDb 7 30 none (some tokAlice) = .authorized (deselect alice) :=
  ⟨(protect_gate_order sampleDb 7 30 none none).1 (by decide),
   (protect_gate_order sampleDb 7 30 none (some tokBadSig)).2.1 tokBadSig
     .invalidSignature (by decide) (by decide) (by decide),
   (protect_gate_order sampleDb 7 30 none (some tokGhost)).2.2.1 tokGhost
     ⟨99, 10⟩ (by decide) (by decide) (by decide) (by decide),
   (protect_gate_order sampleDb 7 30 none (some tokStale)).2.2.2.1 tokStale
     ⟨2, 10⟩ (deselect bob) (by decide) (by decide) (by decide) (by decide) (by decide),
   (protect_gate_order sampleDb 7 30 none (some tokAlice)).2.2.2.2 tokAlice
     ⟨1, 10⟩ (deselect alice) (by decide) (by decide) (by decide) (by decide) (by decide)⟩

/-- C2: a token issued for user U by `createSendToken`, presented to the
gate before its expiry and before any password change for U, verifies
successfully, decodes back to U's identifier, and authorizes U. -/
theorem token_roundtrip_authorizes (env : Env) (db : List UserRec) (u : UserRec)
    (iatS nowS : Nat)
    (hfind : db.find? (fun r => r._id = u._id) = some u)
    (hexp : nowS < iatS + env.jwtExpiresIn)
    (hfresh : (deselect u).passwordChangedAfter iatS = false) :
    jwtVerify env.jwtSecret nowS (createSendToken env iatS u._id) =
      Except.ok ⟨u._id, iatS⟩ ∧
    protect db env.jwtSecret nowS none (some (createSendToken env iatS u._id)) =
      .authorized (deselect u) := by
  have hv : jwtVerify env.jwtSecret nowS (createSendToken env iatS u._id) =
      Except.ok ⟨u._id, iatS⟩ := by
    rw [createSendToken]
    exact jwtVerify_jwtSign _ _ _ _ _ hexp
  refine ⟨hv, ?_⟩
  have htr : truthy (some (createSendToken env iatS u._id)) = true := by
    rw [createSendToken, jwtSign]
    exact truthy_tokString _
  have hex := extractToken_cookie (createSendToken env iatS u._id) htr
  simp [protect, hex, htr, hv, findById, hfind, hfresh]

/-- C2 witness: a token signed for Alice at second 10 with a 100-second
expiry is verified and authorized at second 50. -/
theorem token_roundtrip_authorizes_witness :
    jwtVerify envDev.jwtSecret 50 (createSendToken envDev 10 alice._id) =
      Except.ok ⟨alice._id, 10⟩ ∧
    protect sampleDb envDev.jwtSecret 50 none
      (some (createSendToken envDev 10 alice._id)) = .authorized (deselect alice) :=
  token_roundtrip_authorizes envDev sampleDb alice 10 50 (by decide) (by decide)
    (by decide)

/-- C3 counterexample: the claim says `secure`/`sameSite` are both relaxed
in development and strict in production, but the code issues the cookie
with `sameSite = "None"` (the relaxed setting) in production mode and
`sameSite = "Strict"` in development mode. -/
theorem sendToken_sameSite_counterexample :
    (sendToken envProd 0 0 (deselect alice) 200).1.options.sameSite = "None" ∧
    (sendToken envDev 0 0 (deselect alice) 200).1.options.sameSite = "Strict" ∧
    ("None" : String) ≠ "Strict" := by
  refine ⟨by decide, by decide, by decide⟩

/-- C3 (amended): whenever a token is issued and attached to a response,
the cookie is named jwt, has `httpOnly = true`, `path = "/"`, expiry equal
to the configured day count from now, `secure` false in development and
true otherwise, and `sameSite` "Strict" in development and "None"
otherwise (for `sameSite`, the code is strict in development and relaxed
in production — the reverse of the original claim). -/
theorem sendToken_cookie_attributes (env : Env) (nowMs nowS : Nat)
    (user : UserDoc) (code : Nat) :
    (sendToken env nowMs nowS user code).1.name = "jwt" ∧
    (sendToken env nowMs nowS user code).1.options.httpOnly = true ∧
    (sendToken env nowMs nowS user code).1.options.path = "/" ∧
    (sendToken env nowMs nowS user code).1.options.expires =
      nowMs + env.cookieExpiresInDays * 24 * 60 * 60 * 1000 ∧
    (sendToken env nowMs nowS user code).1.options.secure =
      (if env.nodeEnv == "development" then false else true) ∧
    (sendToken env nowMs nowS user code).1.options.sameSite =
      (if env.nodeEnv == "development" then "Strict" else "None") := by
  refine ⟨rfl, rfl, rfl, rfl, rfl, rfl⟩

/-- C4: log-in with an email that matches no user, and log-in with an
existing email whose password fails the stored-hash comparison, both
produce 401 with the identical message "Invalid email or password". -/
theorem logIn_uniform_failure (env : Env) (db : List UserRec) (nowMs nowS : Nat)
    (email pw : Option String)
    (he : truthy email = true) (hp : truthy pw = true) :
    (findOneByEmailWithPassword db (email.getD "") = none →
      logIn env db nowMs nowS email pw = .err 401 "Invalid email or password") ∧
    (∀ u, findOneByEmailWithPassword db (email.getD "") = some u →
      comparePasswords (pw.getD "") (u.password.getD "") = false →
      logIn env db nowMs nowS email pw = .err 401 "Invalid email or password") := by
  constructor
  · intro hf
    simp [logIn, he, hp, hf]
  · intro u hf hc
    simp [logIn, he, hp, hf, hc]

/-- C4 witness: an unknown email and a wrong password for a known email
yield the byte-identical 401 response. -/
theorem logIn_uniform_failure_witness :
    logIn envDev sampleDb 1000 10 (some "nobody@example.com") (some "pw") =
      .err 401 "Invalid email or password" ∧
    logIn envDev sampleDb 1000 10 (some "alice@example.com") (some "wrong") =
      .err 401 "Invalid email or password" :=
  ⟨(logIn_uniform_failure envDev sampleDb 1000 10 (some "nobody@example.com")
      (some "pw") (by decide) (by decide)).1 (by decide),
   (logIn_uniform_failure envDev sampleDb 1000 10 (some "alice@example.com")
      (some "wrong") (by decide) (by decide)).2 (withPassword alice) (by decide)
      (by decide)⟩

/-- C5: profile update applies only the `name`, `email` and `status` fields
of the request body — the returned document and the stored record keep
their role, password and password-changed-at — and the concrete body
`{name: "X", role: "admin"}` updates only `name`. -/
theorem updateMe_allowlist (db : List UserRec) (r : UserRec)
    (body : List (String × String))
    (hfind : db.find? (fun x => x._id = r._id) = some r) :
    (∀ u2, (updateMe db r._id body).2.user = some u2 →
      u2.role = r.role ∧ u2._id = r._id ∧
      u2.passwordChangedAt = r.passwordChangedAt) ∧
    (∀ x, x ∈ (updateMe db r._id body).1 → x._id = r._id →
      x.role = r.role ∧ x.password = r.password ∧
      x.passwordChangedAt = r.passwordChangedAt) ∧
    (updateMe db r._id [("name", "X"), ("role", "admin")]).2.user =
      some { deselect r with name := "X" } := by
  obtain ⟨f1, f2, f3, f4⟩ := foldl_filter_preserves body r
  refine ⟨?_, ?_, ?_⟩
  · intro u2 h
    have hu : (updateMe db r._id body).2.user =
        some (deselect ((filterObject body ["name", "email", "status"]).foldl
          applyField r)) := by
      simp [updateMe, findByIdAndUpdate, hfind]
    rw [hu] at h
    have h2 := Option.some.inj h
    rw [← h2]
    exact ⟨f1, f2, f4⟩
  · intro x hx hid
    have hstore : (updateMe db r._id body).1 =
        db.map (fun y => if y._id = r._id then
          (filterObject body ["name", "email", "status"]).foldl applyField r
          else y) := by
      simp [updateMe, findByIdAndUpdate, hfind]
    rw [hstore] at hx
    rcases List.mem_map.1 hx with ⟨y, hy, hxy⟩
    by_cases hyid : y._id = r._id
    · rw [if_pos hyid] at hxy
      rw [← hxy]
      exact ⟨f1, f3, f4⟩
    · rw [if_neg hyid] at hxy
      rw [← hxy] at hid
      exact absurd hid hyid
  · have hf : filterObject [("name", "X"), ("role", "admin")]
        ["name", "email", "status"] = [("name", "X")] := by decide
    simp [updateMe, findByIdAndUpdate, hfind, hf, applyField, deselect]

/-- C5 witness: the concrete body `{name: "X", role: "admin"}` on the
sample store updates only Alice's name; her role is unchanged. -/
theorem updateMe_allowlist_witness :
    (updateMe sampleDb alice._id [("name", "X"), ("role", "admin")]).2.user =
      some { deselect alice with name := "X" } ∧
    ({ deselect alice with name := "X" } : UserDoc).role = alice.role :=
  ⟨(updateMe_allowlist sampleDb alice [("name", "X"), ("role", "admin")]
      (by decide)).2.2,
   ((updateMe_allowlist sampleDb alice [("name", "X"), ("role", "admin")]
      (by decide)).1 { deselect alice with name := "X" } (by decide)).1⟩

/-- C6: password update returns 400 and leaves the store unchanged when the
supplied current password is missing or fails the stored-hash comparison;
when it matches, the stored record gets the new hash and a fresh
password-changed-at stamp, and a freshly signed token is sent in the 200
response. -/
theorem updateMyPassword_reauth (env : Env) (db : List UserRec)
    (nowMs nowS : Nat) (r : UserRec) (body : PwdBody)
    (hfind : db.find? (fun x => x._id = r._id) = some r) :
    ((!truthy body.password ||
        !comparePasswords (body.password.getD "") r.password) = true →
      updateMyPassword env db nowMs nowS r._id body =
        (db, .err 400 "Current password is incorrect")) ∧
    (∀ cur np, body = ⟨some cur, some np, some np⟩ →
      truthy (some cur) = true → comparePasswords cur r.password = true →
      updateMyPassword env db nowMs nowS r._id body =
        (db.map (fun x => if x._id = r._id then rehash r np nowS else x),
         .ok (sendToken env nowMs nowS (withPassword (rehash r np nowS)) 200).1
            (sendToken env nowMs nowS (withPassword (rehash r np nowS)) 200).2) ∧
      (sendToken env nowMs nowS (withPassword (rehash r np nowS)) 200).2.statusCode
        = 200 ∧
      (sendToken env nowMs nowS (withPassword (rehash r np nowS)) 200).2.token =
        createSendToken env nowS r._id ∧
      (rehash r np nowS).password = bhash np ∧
      (rehash r np nowS).passwordChangedAt = some nowS) := by
  constructor
  · intro h
    simp [updateMyPassword, hfind, h]
  · intro cur np hbody htr hcmp
    subst hbody
    exact ⟨updateMyPassword_success env db nowMs nowS r cur np hfind htr hcmp,
      rfl, rfl, rfl, rfl⟩

/-- C6 witness: a wrong current password is refused with 400 and the store
is unchanged; the right current password replaces the hash and returns a
fresh 200 token response. -/
theorem updateMyPassword_reauth_witness :
    updateMyPassword envDev sampleDb 1000 10 alice._id
      ⟨some "wrong", some "n3w", some "n3w"⟩ =
      (sampleDb, .err 400 "Current password is incorrect") ∧
    updateMyPassword envDev sampleDb 1000 10 alice._id
      ⟨some "correct-horse", some "n3w", some "n3w"⟩ =
      (sampleDb.map (fun x => if x._id = alice._id then rehash alice "n3w" 10 else x),
       .ok (sendToken envDev 1000 10 (withPassword (rehash alice "n3w" 10)) 200).1
          (sendToken envDev 1000 10 (withPassword (rehash alice "n3w" 10)) 200).2) :=
  ⟨(updateMyPassword_reauth envDev sampleDb 1000 10 alice
      ⟨some "wrong", some "n3w", some "n3w"⟩ (by decide)).1 (by decide),
   ((updateMyPassword_reauth envDev sampleDb 1000 10 alice
      ⟨some "correct-horse", some "n3w", some "n3w"⟩ (by decide)).2 "correct-horse"
      "n3w" rfl (by decide) (by decide)).1⟩

/-- C7: log-out overwrites the jwt cookie with the sentinel value and an
expiry 10 seconds ahead, changes no server-side state, and a request whose
Authorization header carries a still-valid token is authorized by the gate
exactly as before the log-out. -/
theorem logOut_stateless (env : Env) (db : List UserRec) (nowMs : Nat) :
    (logOut env db nowMs).1 = db ∧
    (logOut env db nowMs).2.1.name = "jwt" ∧
    (logOut env db nowMs).2.1.value = "loggedout" ∧
    (logOut env db nowMs).2.1.options.expires = nowMs + 10 * 1000 ∧
    (logOut env db nowMs).2.2 = ⟨200, "success"⟩ ∧
    (∀ secret nowS auth ck,
      protect (logOut env db nowMs).1 secret nowS auth ck =
        protect db secret nowS auth ck) ∧
    (∀ secret nowS tok u,
      protect db secret nowS (some ("Bearer " ++ tok)) none = .authorized u →
      protect (logOut env db nowMs).1 secret nowS (some ("Bearer " ++ tok)) none =
        .authorized u) :=
  ⟨rfl, rfl, rfl, rfl, rfl, fun _ _ _ _ => rfl, fun _ _ _ _ h => h⟩

/-- C7 witness: after a log-out, Alice's still-unexpired bearer token is
still accepted by the gate. -/
theorem logOut_stateless_witness :
    protect (logOut envDev sampleDb 5000).1 7 30 (some ("Bearer " ++ tokAlice))
      none = .authorized (deselect alice) :=
  (logOut_stateless envDev sampleDb 5000).2.2.2.2.2.2 7 30 tokAlice
    (deselect alice) (by decide)

/-- C8: every request whose path matches none of the mounted route prefixes
(/api/users, /api/dashboard, /api/tasks, /api/settings) falls through to
the catch-all and receives 404 with body message "Not Found". -/
theorem unmatched_path_404 (path : String)
    (h : ∀ p ∈ mountedRoutes, useMatches p path = false) :
    appDispatch path = .notFound 404 ⟨"Not Found"⟩ := by
  have hn : mountedRoutes.find? (fun p => useMatches p path) = none := by
    rw [List.find?_eq_none]
    intro p hp
    simp [h p hp]
  simp [appDispatch, hn]

/-- C8 witness: `/api/unknown` matches no mounted prefix and gets the 404
Not Found body. -/
theorem unmatched_path_404_witness :
    appDispatch "/api/unknown" = .notFound 404 ⟨"Not Found"⟩ :=
  unmatched_path_404 "/api/unknown" (by decide)

/-- C9: the success responses of log-in and of password update embed the
user document fetched with the normally-hidden password field selected —
so the JSON body's user object carries the stored password hash (the
current hash for log-in, the new hash for password update). -/
theorem responses_include_password_hash (env : Env) (db : List UserRec)
    (nowMs nowS : Nat) (e cur np : String) (r : UserRec)
    (hemail : db.find? (fun x => x.email = e) = some r)
    (hid : db.find? (fun x => x._id = r._id) = some r)
    (he : truthy (some e) = true) (hcur : truthy (some cur) = true)
    (hcmp : comparePasswords cur r.password = true) :
    logIn env db nowMs nowS (some e) (some cur) =
      .ok (sendToken env nowMs nowS (withPassword r) 200).1
          (sendToken env nowMs nowS (withPassword r) 200).2 ∧
    (sendToken env nowMs nowS (withPassword r) 200).2.user.password =
      some r.password ∧
    (updateMyPassword env db nowMs nowS r._id ⟨some cur, some np, some np⟩).2 =
      .ok (sendToken env nowMs nowS (withPassword (rehash r np nowS)) 200).1
          (sendToken env nowMs nowS (withPassword (rehash r np nowS)) 200).2 ∧
    (sendToken env nowMs nowS (withPassword (rehash r np nowS)) 200).2.user.password
      = some (bhash np) := by
  refine ⟨logIn_success env db nowMs nowS e cur r hemail he hcur hcmp, rfl, ?_, rfl⟩
  rw [updateMyPassword_success env db nowMs nowS r cur np hid hcur hcmp]

/-- C9 witness: Alice's log-in response and her password-update response
both carry a password hash inside the returned user object. -/
theorem responses_include_password_hash_witness :
    logIn envDev sampleDb 1000 10 (some "alice@example.com")
      (some "correct-horse") =
      .ok (sendToken envDev 1000 10 (withPassword alice) 200).1
          (sendToken envDev 1000 10 (withPassword alice) 200).2 ∧
    (sendToken envDev 1000 10 (withPassword alice) 200).2.user.password =
      some alice.password ∧
    (updateMyPassword envDev sampleDb 1000 10 alice._id
      ⟨some "correct-horse", some "n3w", some "n3w"⟩).2 =
      .ok (sendToken envDev 1000 10 (withPassword (rehash alice "n3w" 10)) 200).1
          (sendToken envDev 1000 10 (withPassword (rehash alice "n3w" 10)) 200).2 ∧
    (sendToken envDev 1000 10 (withPassword (rehash alice "n3w" 10)) 200).2.user.password
      = some (bhash "n3w") :=
  responses_include_password_hash envDev sampleDb 1000 10 "alice@example.com"
    "correct-horse" "n3w" alice (by decide) (by decide) (by decide) (by decide)
    (by decide)

/-- C10: when a truthy Authorization header starts with "Bearer", the token
comes solely from the header (the cookie never enters the result), and the
header "Bearer" with no token part is rejected 401 "not logged in" even
when a valid jwt cookie accompanies the request. -/
theorem bearer_header_wins (db : List UserRec) (secret nowS : Nat)
    (ck : Option String) :
    (∀ a, truthy (some a) = true → strStartsWith a "Bearer" = true →
      extractToken (some a) ck = (strSplitOnSpace a).get? 1) ∧
    protect db secret nowS (some "Bearer") ck =
      .rejected 401 "You are not logged in! Please log in to access this route." := by
  constructor
  · intro a htr hsw
    simp [extractToken, htr, hsw]
  · have hex : extractToken (some "Bearer") ck = none := rfl
    simp [protect, hex, truthy]

/-- C10 witness: a "Bearer abc" header yields the header token even with a
valid cookie present, and a bare "Bearer" header is rejected despite
Alice's valid cookie. -/
theorem bearer_header_wins_witness :
    extractToken (some "Bearer abc") (some tokAlice) = some "abc" ∧
    protect sampleDb 7 30 (some "Bearer") (some tokAlice) =
      .rejected 401 "You are not logged in! Please log in to access this route." :=
  ⟨((bearer_header_wins sampleDb 7 30 (some tokAlice)).1 "Bearer abc" (by decide)
      (by decide)).trans (by decide),
   (bearer_header_wins sampleDb 7 30 (some tokAlice)).2⟩
